import Mathlib

/-!
Shallow embedding of `app/main.py` (FastAPI backend: users, tasks, kanban,
health records, Supabase storage passthrough) and proofs about its
authentication, ownership-isolation and error-handling behavior.

Conventions of the embedding:
  - every handler takes the request arguments, the signing secret, the
    current time `now` (Unix seconds), the presented bearer `Token`, a
    `fail : Option String` input that is `some msg` exactly when the
    database/storage round trip inside the `try` block raises an
    unclassified exception with message `msg`, and the relevant table
    state as a list of rows; it returns the response
    (`Except HTTPException ...`) paired with the table state after the
    request;
  - SQL statements are translated literally: `WHERE id = $1 AND user_id = $2`
    becomes a filter on both fields, `UPDATE ... SET` becomes a map that
    rewrites exactly the listed columns of the matching rows, `RETURNING id`
    of an `INSERT` produces the next serial id;
  - SQL `date`/`timestamp` columns are carried as `Int` (epoch values) and
    `float` columns as `Rat`; no arithmetic is ever performed on them, only
    storage and retrieval, so any type with decidable equality is faithful.
-/

namespace App

/-- A FastAPI `HTTPException` with its status code and detail message. -/
structure HTTPException where
  status_code : Nat
  detail : String
deriving DecidableEq, Repr

/-- Starlette renders `str(e)` of an `HTTPException e` as the status code,
a colon and a space, and the detail. `delete_task` relies on this when its
broad `except` re-wraps a 404 raised inside its own `try` block. -/
def HTTPException.str (e : HTTPException) : String :=
  toString e.status_code ++ ": " ++ e.detail

/-- The JWT claims set used by the application: a `user_id` claim (the
account id, the token subject) and the `exp` claim (expiry, Unix seconds)
added by `create_access_token`. -/
structure TokenPayload where
  user_id : Int
  exp : Int
deriving DecidableEq, Repr

/-- Model of the HMAC-SHA256 tag `jwt.encode`/`jwt.decode` compute over the
serialized payload with the secret key: an executable keyed function of the
payload. Only the property that recomputing the tag with the same secret
over the same payload yields the same value is used in the development. -/
def hmacSign (secret : String) (p : TokenPayload) : Int :=
  (secret.length : Int) * 7919 + p.user_id * 1000003 + p.exp * 65599 + 1

/-- A JWT as seen by `jwt.decode`: either structurally malformed
(`wellFormed = false`, the PyJWT `DecodeError` case) or a claims payload
together with its signature tag. -/
structure Token where
  payload : TokenPayload
  sig : Int
  wellFormed : Bool
deriving DecidableEq, Repr

/-- The two failure classes of `jwt.decode` that `verify_token`
distinguishes: `ExpiredSignatureError` and every other
`InvalidTokenError` (malformed token, wrong signature). -/
inductive JwtError where
  | expired
  | invalid
deriving DecidableEq, Repr

/-- Model of PyJWT `jwt.decode(token, secret, algorithms=["HS256"])`:
the token is first parsed (a malformed token raises `DecodeError`) and its
signature verified (`InvalidSignatureError`), both subclasses of
`InvalidTokenError`; only afterwards are the claims validated, where
`_validate_exp` raises `ExpiredSignatureError` when `exp <= now`
(zero leeway); otherwise the payload is returned. -/
def jwt_decode (secret : String) (t : Token) (now : Int) : Except JwtError TokenPayload :=
  if t.wellFormed = false then .error .invalid
  else if t.sig ≠ hmacSign secret t.payload then .error .invalid
  else if t.payload.exp ≤ now then .error .expired
  else .ok t.payload

/-- Model of PyJWT `jwt.encode(payload, secret, algorithm="HS256")`. -/
def jwt_encode (secret : String) (p : TokenPayload) : Token :=
  { payload := p, sig := hmacSign secret p, wellFormed := true }

/-- `verify_token` from `app/main.py`: decodes the token with the secret
key; `ExpiredSignatureError` becomes HTTP 401 "Token expired",
`InvalidTokenError` becomes HTTP 401 "Invalid token", success returns the
decoded claims. -/
def verify_token (secret : String) (now : Int) (token : Token) :
    Except HTTPException TokenPayload :=
  match jwt_decode secret token now with
  | .ok payload => .ok payload
  | .error .expired => .error { status_code := 401, detail := "Token expired" }
  | .error .invalid => .error { status_code := 401, detail := "Invalid token" }

/-- `create_access_token` from `app/main.py`: the claims dict (always of the
form user_id = account id in this application) is extended with
`exp = now + expires_delta`; the Python guard `if expires_delta:` is false
both for `None` and for a zero timedelta, in which case the default of 15
minutes (900 seconds) applies. -/
def create_access_token (secret : String) (now : Int) (data_user_id : Int)
    (expires_delta : Option Int) : Token :=
  let expire : Int :=
    match expires_delta with
    | some d => if d = 0 then now + 900 else now + d
    | none => now + 900
  jwt_encode secret { user_id := data_user_id, exp := expire }

/-- Model of a bcrypt digest `bcrypt.hashpw(password, salt)`: the salt is
embedded in the digest string, together with a tag that is an executable
function of salt and password. Only its equality behavior is used. -/
structure BcryptDigest where
  salt : String
  tag : Nat
deriving DecidableEq, Repr

/-- The tag component of a bcrypt digest, as a function of salt and
password. -/
def bcryptTag (salt password : String) : Nat :=
  salt.length * 131071 + password.length * 257 + 5381

/-- `bcrypt.hashpw(password.encode(), salt)`. -/
def bcrypt_hashpw (password : String) (salt : String) : BcryptDigest :=
  { salt := salt, tag := bcryptTag salt password }

/-- `bcrypt.checkpw(candidate.encode(), digest.encode())`: bcrypt re-derives
the tag from the salt stored in the digest and compares it with the stored
tag. -/
def bcrypt_checkpw (candidate : String) (digest : BcryptDigest) : Bool :=
  digest.tag == bcryptTag digest.salt candidate

/-- A row of the `users` table. -/
structure UserRow where
  id : Int
  username : String
  password : BcryptDigest
deriving DecidableEq, Repr

/-- The pydantic request model `User`: username and plaintext password. -/
structure User where
  username : String
  password : String
deriving DecidableEq, Repr

/-- The serial id PostgreSQL assigns to a fresh `INSERT ... RETURNING id`:
one more than the largest id handed out so far. -/
def nextId (ids : List Int) : Int :=
  (ids.foldl max 0) + 1

/-- Modelled from the spec: the database schema is not part of
`app/main.py`; section 4.1 of the spec assumes a uniqueness constraint on
`users.username`, under which a duplicate insert raises
`asyncpg.UniqueViolationError` carrying the PostgreSQL message below. -/
def uniqueViolationMessage : String :=
  "duplicate key value violates unique constraint \"users_username_key\""

/-- `create_user` from `app/main.py` (POST /api/create-user/): hashes the
password with `bcrypt.hashpw` under a fresh salt (the `salt` argument
stands for `bcrypt.gensalt()`) and inserts the row; every exception raised
in the `try` block — including the unique violation on a duplicate
username — is caught by `except Exception` and re-raised as HTTP 500 with
`str(e)` as the detail. -/
def create_user (user : User) (salt : String) (fail : Option String)
    (db : List UserRow) : Except HTTPException (String × Int) × List UserRow :=
  match fail with
  | some msg => (.error { status_code := 500, detail := msg }, db)
  | none =>
    if db.any (fun r => r.username == user.username) then
      (.error { status_code := 500, detail := uniqueViolationMessage }, db)
    else
      let user_id := nextId (db.map UserRow.id)
      (.ok ("User created successfully", user_id),
        db ++ [{ id := user_id, username := user.username,
                 password := bcrypt_hashpw user.password salt }])

/-- The three ways `login` can finish: a token response, an HTTP error, or
an exception that leaves the handler uncaught (its `try` block has only a
`finally`, no broad `except`). -/
inductive LoginResult where
  | ok (access_token : Token) (token_type : String)
  | http (e : HTTPException)
  | uncaught (msg : String)
deriving DecidableEq, Repr

/-- `login` from `app/main.py` (POST /api/login/): fetches the row for the
username; when a row exists and `bcrypt.checkpw` accepts the password it
issues a token for the account id, otherwise — row absent or digest
mismatch alike — it raises HTTP 400 "Invalid credentials". A database
failure propagates uncaught. -/
def login (user : User) (secret : String) (now : Int) (fail : Option String)
    (db : List UserRow) : LoginResult :=
  match fail with
  | some msg => .uncaught msg
  | none =>
    match db.find? (fun r => r.username == user.username) with
    | some row =>
      if bcrypt_checkpw user.password row.password then
        .ok (create_access_token secret now row.id none) "bearer"
      else
        .http { status_code := 400, detail := "Invalid credentials" }
    | none => .http { status_code := 400, detail := "Invalid credentials" }

/-- `verify_token_endpoint` from `app/main.py` (GET /api/verify-token/):
returns the user_id claim of a valid token, re-raising the
`HTTPException` of `verify_token` otherwise. -/
def verify_token_endpoint (secret : String) (now : Int) (token : Token) :
    Except HTTPException Int :=
  match verify_token secret now token with
  | .error e => .error e
  | .ok payload => .ok payload.user_id

/-- A row of the `tasks` table. -/
structure TaskRow where
  id : Int
  user_id : Int
  description : String
  completed : Bool
deriving DecidableEq, Repr

/-- The pydantic request model `Task`: exactly the fields `description` and
`completed` (the latter defaulting to false at parse time). -/
structure Task where
  description : String
  completed : Bool
deriving DecidableEq, Repr

/-- The projection `SELECT id, description, completed FROM tasks`. -/
structure TaskView where
  id : Int
  description : String
  completed : Bool
deriving DecidableEq, Repr

/-- `create_task` from `app/main.py` (POST /api/tasks/): inserts a row owned
by the token subject and returns the new id; broad failures become HTTP 500
with `str(e)`. -/
def create_task (task : Task) (secret : String) (now : Int) (token : Token)
    (fail : Option String) (db : List TaskRow) :
    Except HTTPException (String × Int) × List TaskRow :=
  match verify_token secret now token with
  | .error e => (.error e, db)
  | .ok payload =>
    match fail with
    | some msg => (.error { status_code := 500, detail := msg }, db)
    | none =>
      let task_id := nextId (db.map TaskRow.id)
      (.ok ("Task created successfully", task_id),
        db ++ [{ id := task_id, user_id := payload.user_id,
                 description := task.description, completed := task.completed }])

/-- `get_tasks` from `app/main.py` (GET /api/tasks/): returns the rows of
the `tasks` table whose `user_id` is the token subject. -/
def get_tasks (secret : String) (now : Int) (token : Token)
    (fail : Option String) (db : List TaskRow) :
    Except HTTPException (List TaskView) :=
  match verify_token secret now token with
  | .error e => .error e
  | .ok payload =>
    match fail with
    | some msg => .error { status_code := 500, detail := msg }
    | none =>
      .ok ((db.filter (fun r => r.user_id == payload.user_id)).map
        (fun r => { id := r.id, description := r.description,
                    completed := r.completed }))

/-- The row rewrite performed by the SQL of `update_task`:
`UPDATE tasks SET completed = $1 WHERE id = $2 AND user_id = $3`. -/
def updateTaskRowSql (task_id user_id : Int) (completed : Bool)
    (r : TaskRow) : TaskRow :=
  if r.id == task_id && r.user_id == user_id then
    { r with completed := completed }
  else r

/-- `update_task` from `app/main.py` (PATCH /api/tasks/{task_id}/): fetches
the row by id and owner and raises 404 when it is absent (the
`except HTTPException` clause re-raises it past the broad catch); otherwise
runs the UPDATE, which sets only `completed`. A broad failure is mapped to
HTTP 500 with the fixed detail "Internal server error". -/
def update_task (task_id : Int) (task : Task) (secret : String) (now : Int)
    (token : Token) (fail : Option String) (db : List TaskRow) :
    Except HTTPException String × List TaskRow :=
  match verify_token secret now token with
  | .error e => (.error e, db)
  | .ok payload =>
    match fail with
    | some _ => (.error { status_code := 500, detail := "Internal server error" }, db)
    | none =>
      match (db.filter (fun r => r.id == task_id && r.user_id == payload.user_id)).head? with
      | none => (.error { status_code := 404, detail := "Task not found" }, db)
      | some _ =>
        (.ok "Task updated successfully",
          db.map (updateTaskRowSql task_id payload.user_id task.completed))

/-- `delete_task` from `app/main.py` (DELETE /api/tasks/{task_id}/): runs
the owner-filtered DELETE; when the command tag is not "DELETE 1" it raises
a 404 inside its `try` block, which its own `except Exception` clause then
catches and re-wraps as HTTP 500 whose detail is `str(e)` of that 404. -/
def delete_task (task_id : Int) (secret : String) (now : Int) (token : Token)
    (fail : Option String) (db : List TaskRow) :
    Except HTTPException String × List TaskRow :=
  match verify_token secret now token with
  | .error e => (.error e, db)
  | .ok payload =>
    match fail with
    | some msg => (.error { status_code := 500, detail := msg }, db)
    | none =>
      let deleted := (db.filter (fun r => r.id == task_id && r.user_id == payload.user_id)).length
      let db2 := db.filter (fun r => !(r.id == task_id && r.user_id == payload.user_id))
      if deleted == 1 then
        (.ok "Task deleted successfully", db2)
      else
        (.error { status_code := 500,
                  detail := (HTTPException.mk 404 "Task not found").str }, db2)

/-- A row of the `kanban_columns` table. -/
structure KanbanColumnRow where
  id : Int
  user_id : Int
  name : String
deriving DecidableEq, Repr

/-- The pydantic request model `KanbanColumn`: just a name. -/
structure KanbanColumn where
  name : String
deriving DecidableEq, Repr

/-- The projection `SELECT id, name FROM kanban_columns`. -/
structure KanbanColumnView where
  id : Int
  name : String
deriving DecidableEq, Repr

/-- `create_kanban_column` from `app/main.py` (POST /api/kanban/). -/
def create_kanban_column (column : KanbanColumn) (secret : String) (now : Int)
    (token : Token) (fail : Option String) (db : List KanbanColumnRow) :
    Except HTTPException (String × Int) × List KanbanColumnRow :=
  match verify_token secret now token with
  | .error e => (.error e, db)
  | .ok payload =>
    match fail with
    | some msg => (.error { status_code := 500, detail := msg }, db)
    | none =>
      let column_id := nextId (db.map KanbanColumnRow.id)
      (.ok ("Kanban column created successfully", column_id),
        db ++ [{ id := column_id, user_id := payload.user_id, name := column.name }])

/-- `delete_kanban_column` from `app/main.py` (DELETE /api/kanban/{column_id}/):
runs the owner-filtered DELETE and reports success unconditionally — the
command tag is never inspected, so a zero-row delete still answers
"Kanban column deleted successfully". -/
def delete_kanban_column (column_id : Int) (secret : String) (now : Int)
    (token : Token) (fail : Option String) (db : List KanbanColumnRow) :
    Except HTTPException String × List KanbanColumnRow :=
  match verify_token secret now token with
  | .error e => (.error e, db)
  | .ok payload =>
    match fail with
    | some msg => (.error { status_code := 500, detail := msg }, db)
    | none =>
      (.ok "Kanban column deleted successfully",
        db.filter (fun r => !(r.id == column_id && r.user_id == payload.user_id)))

/-- The row rewrite performed by the SQL of `update_kanban_column`:
`UPDATE kanban_columns SET name = $1 WHERE id = $2 AND user_id = $3`. -/
def updateKanbanColumnRowSql (name : String) (column_id user_id : Int)
    (r : KanbanColumnRow) : KanbanColumnRow :=
  if r.id == column_id && r.user_id == user_id then { r with name := name } else r

/-- `update_kanban_column` from `app/main.py` (PATCH /api/kanban/{column_id}/):
runs the owner-filtered UPDATE and reports success unconditionally, also
when zero rows match. -/
def update_kanban_column (column_id : Int) (column : KanbanColumn)
    (secret : String) (now : Int) (token : Token) (fail : Option String)
    (db : List KanbanColumnRow) :
    Except HTTPException String × List KanbanColumnRow :=
  match verify_token secret now token with
  | .error e => (.error e, db)
  | .ok payload =>
    match fail with
    | some msg => (.error { status_code := 500, detail := msg }, db)
    | none =>
      (.ok "Kanban column updated successfully",
        db.map (updateKanbanColumnRowSql column.name column_id payload.user_id))

/-- `get_kanban_columns` from `app/main.py` (GET /api/kanban/). -/
def get_kanban_columns (secret : String) (now : Int) (token : Token)
    (fail : Option String) (db : List KanbanColumnRow) :
    Except HTTPException (List KanbanColumnView) :=
  match verify_token secret now token with
  | .error e => .error e
  | .ok payload =>
    match fail with
    | some msg => .error { status_code := 500, detail := msg }
    | none =>
      .ok ((db.filter (fun r => r.user_id == payload.user_id)).map
        (fun r => { id := r.id, name := r.name }))

/-- A row of the `kanban_tasks` table. -/
structure KanbanTaskRow where
  id : Int
  column_id : Int
  user_id : Int
  description : String
deriving DecidableEq, Repr

/-- The projection `SELECT id, description FROM kanban_tasks`. -/
structure KanbanTaskView where
  id : Int
  description : String
deriving DecidableEq, Repr

/-- `create_kanban_task` from `app/main.py` (POST /api/kanban/{column_id}/tasks/):
note the body is typed as `Task`, so only its description is stored; the
column comes from the path. -/
def create_kanban_task (column_id : Int) (task : Task) (secret : String)
    (now : Int) (token : Token) (fail : Option String)
    (db : List KanbanTaskRow) :
    Except HTTPException (String × Int) × List KanbanTaskRow :=
  match verify_token secret now token with
  | .error e => (.error e, db)
  | .ok payload =>
    match fail with
    | some msg => (.error { status_code := 500, detail := msg }, db)
    | none =>
      let task_id := nextId (db.map KanbanTaskRow.id)
      (.ok ("Kanban task created successfully", task_id),
        db ++ [{ id := task_id, column_id := column_id,
                 user_id := payload.user_id, description := task.description }])

/-- `get_kanban_tasks` from `app/main.py` (GET /api/kanban/{column_id}/tasks/):
the SELECT filters by the column id and by the token subject. -/
def get_kanban_tasks (column_id : Int) (secret : String) (now : Int)
    (token : Token) (fail : Option String) (db : List KanbanTaskRow) :
    Except HTTPException (List KanbanTaskView) :=
  match verify_token secret now token with
  | .error e => .error e
  | .ok payload =>
    match fail with
    | some msg => .error { status_code := 500, detail := msg }
    | none =>
      .ok ((db.filter (fun r => r.column_id == column_id && r.user_id == payload.user_id)).map
        (fun r => { id := r.id, description := r.description }))

/-- The attribute test hasattr(task, "column_id") for `task : Task`
performed by `update_kanban_task`: the pydantic model `Task` declares
exactly the fields `description` and `completed`, so the attribute lookup
fails and the test is false on every instance. -/
def task_has_column_id (_ : Task) : Bool := false

/-- The `new_column_id` computed by `update_kanban_task`:
the body attribute when hasattr(task, "column_id") holds, the path
parameter otherwise. Because `task_has_column_id` is constantly false the
then-branch is unreachable; its value is modelled by 0. -/
def new_kanban_column_id (column_id : Int) (t : Task) : Int :=
  if task_has_column_id t then 0 else column_id

/-- The row rewrite performed by the SQL of `update_kanban_task`:
`UPDATE kanban_tasks SET column_id = $1, description = $2
 WHERE id = $3 AND user_id = $4`. -/
def updateKanbanTaskRowSql (new_column_id : Int) (description : String)
    (task_id user_id : Int) (r : KanbanTaskRow) : KanbanTaskRow :=
  if r.id == task_id && r.user_id == user_id then
    { r with column_id := new_column_id, description := description }
  else r

/-- `update_kanban_task` from `app/main.py`
(PATCH /api/kanban/{column_id}/tasks/{task_id}/): computes `new_column_id`
from the body when it has a column_id attribute (it never does, the body
being a `Task`) and from the path otherwise, then runs the owner-filtered
UPDATE, reporting success unconditionally. -/
def update_kanban_task (column_id task_id : Int) (task : Task)
    (secret : String) (now : Int) (token : Token) (fail : Option String)
    (db : List KanbanTaskRow) :
    Except HTTPException String × List KanbanTaskRow :=
  match verify_token secret now token with
  | .error e => (.error e, db)
  | .ok payload =>
    match fail with
    | some msg => (.error { status_code := 500, detail := msg }, db)
    | none =>
      (.ok "Kanban task updated successfully",
        db.map (updateKanbanTaskRowSql (new_kanban_column_id column_id task)
          task.description task_id payload.user_id))

/-- `delete_kanban_task` from `app/main.py`
(DELETE /api/kanban/{column_id}/tasks/{task_id}/): owner-filtered DELETE,
success reported unconditionally. -/
def delete_kanban_task (task_id : Int) (secret : String) (now : Int)
    (token : Token) (fail : Option String) (db : List KanbanTaskRow) :
    Except HTTPException String × List KanbanTaskRow :=
  match verify_token secret now token with
  | .error e => (.error e, db)
  | .ok payload =>
    match fail with
    | some msg => (.error { status_code := 500, detail := msg }, db)
    | none =>
      (.ok "Kanban task deleted successfully",
        db.filter (fun r => !(r.id == task_id && r.user_id == payload.user_id)))

/-- A row of the `health_activity` table; the SQL `date` column is carried
as an epoch `Int`. -/
structure HealthActivityRow where
  id : Int
  user_id : Int
  date : Int
  steps : Int
  calories : Int
  activity : String
deriving DecidableEq, Repr

/-- The pydantic request model `HealthActivity`. -/
structure HealthActivity where
  date : Int
  steps : Int
  calories : Int
  activity : String
deriving DecidableEq, Repr

/-- `get_health_activity` from `app/main.py` (GET /api/health/activity/):
`SELECT * FROM health_activity WHERE user_id = $1`. -/
def get_health_activity (secret : String) (now : Int) (token : Token)
    (fail : Option String) (db : List HealthActivityRow) :
    Except HTTPException (List HealthActivityRow) :=
  match verify_token secret now token with
  | .error e => .error e
  | .ok payload =>
    match fail with
    | some msg => .error { status_code := 500, detail := msg }
    | none => .ok (db.filter (fun r => r.user_id == payload.user_id))

/-- `create_health_activity` from `app/main.py` (POST /api/health/activity/). -/
def create_health_activity (activity : HealthActivity) (secret : String)
    (now : Int) (token : Token) (fail : Option String)
    (db : List HealthActivityRow) :
    Except HTTPException (String × Int) × List HealthActivityRow :=
  match verify_token secret now token with
  | .error e => (.error e, db)
  | .ok payload =>
    match fail with
    | some msg => (.error { status_code := 500, detail := msg }, db)
    | none =>
      let activity_id := nextId (db.map HealthActivityRow.id)
      (.ok ("Health activity created successfully", activity_id),
        db ++ [{ id := activity_id, user_id := payload.user_id,
                 date := activity.date, steps := activity.steps,
                 calories := activity.calories, activity := activity.activity }])

/-- `delete_health_activity` from `app/main.py`
(DELETE /api/health/activity/{activity_id}/): owner-filtered DELETE,
success reported unconditionally. -/
def delete_health_activity (activity_id : Int) (secret : String) (now : Int)
    (token : Token) (fail : Option String) (db : List HealthActivityRow) :
    Except HTTPException String × List HealthActivityRow :=
  match verify_token secret now token with
  | .error e => (.error e, db)
  | .ok payload =>
    match fail with
    | some msg => (.error { status_code := 500, detail := msg }, db)
    | none =>
      (.ok "Health activity deleted successfully",
        db.filter (fun r => !(r.id == activity_id && r.user_id == payload.user_id)))

/-- A row of the `health_glucose` table; the SQL `timestamp` column is
carried as an epoch `Int` and the `float` column as a `Rat` (no arithmetic
is performed on it). -/
structure HealthGlucoseRow where
  id : Int
  user_id : Int
  date : Int
  glucose : Rat
deriving DecidableEq, Repr

/-- The pydantic request model `HealthGlucose`. -/
structure HealthGlucose where
  date : Int
  glucose : Rat
deriving DecidableEq, Repr

/-- `get_health_glucose` from `app/main.py` (GET /api/health/glucose/). -/
def get_health_glucose (secret : String) (now : Int) (token : Token)
    (fail : Option String) (db : List HealthGlucoseRow) :
    Except HTTPException (List HealthGlucoseRow) :=
  match verify_token secret now token with
  | .error e => .error e
  | .ok payload =>
    match fail with
    | some msg => .error { status_code := 500, detail := msg }
    | none => .ok (db.filter (fun r => r.user_id == payload.user_id))

/-- `create_health_glucose` from `app/main.py` (POST /api/health/glucose/). -/
def create_health_glucose (glucose : HealthGlucose) (secret : String)
    (now : Int) (token : Token) (fail : Option String)
    (db : List HealthGlucoseRow) :
    Except HTTPException (String × Int) × List HealthGlucoseRow :=
  match verify_token secret now token with
  | .error e => (.error e, db)
  | .ok payload =>
    match fail with
    | some msg => (.error { status_code := 500, detail := msg }, db)
    | none =>
      let glucose_id := nextId (db.map HealthGlucoseRow.id)
      (.ok ("Health glucose created successfully", glucose_id),
        db ++ [{ id := glucose_id, user_id := payload.user_id,
                 date := glucose.date, glucose := glucose.glucose }])

/-- `delete_health_glucose` from `app/main.py`
(DELETE /api/health/glucose/{glucose_id}/): owner-filtered DELETE,
success reported unconditionally. -/
def delete_health_glucose (glucose_id : Int) (secret : String) (now : Int)
    (token : Token) (fail : Option String) (db : List HealthGlucoseRow) :
    Except HTTPException String × List HealthGlucoseRow :=
  match verify_token secret now token with
  | .error e => (.error e, db)
  | .ok payload =>
    match fail with
    | some msg => (.error { status_code := 500, detail := msg }, db)
    | none =>
      (.ok "Health glucose deleted successfully",
        db.filter (fun r => !(r.id == glucose_id && r.user_id == payload.user_id)))

/-- A row of the `health_food` table. -/
structure HealthFoodRow where
  id : Int
  user_id : Int
  date : Int
  calories : Int
  water : Rat
deriving DecidableEq, Repr

/-- The pydantic request model `HealthFood`. -/
structure HealthFood where
  date : Int
  calories : Int
  water : Rat
deriving DecidableEq, Repr

/-- `create_health_food` from `app/main.py` (POST /api/health/food/). -/
def create_health_food (food : HealthFood) (secret : String) (now : Int)
    (token : Token) (fail : Option String) (db : List HealthFoodRow) :
    Except HTTPException (String × Int) × List HealthFoodRow :=
  match verify_token secret now token with
  | .error e => (.error e, db)
  | .ok payload =>
    match fail with
    | some msg => (.error { status_code := 500, detail := msg }, db)
    | none =>
      let food_id := nextId (db.map HealthFoodRow.id)
      (.ok ("Health food created successfully", food_id),
        db ++ [{ id := food_id, user_id := payload.user_id, date := food.date,
                 calories := food.calories, water := food.water }])

/-- `delete_health_food` from `app/main.py`
(DELETE /api/health/food/{food_id}/): owner-filtered DELETE, success
reported unconditionally. -/
def delete_health_food (food_id : Int) (secret : String) (now : Int)
    (token : Token) (fail : Option String) (db : List HealthFoodRow) :
    Except HTTPException String × List HealthFoodRow :=
  match verify_token secret now token with
  | .error e => (.error e, db)
  | .ok payload =>
    match fail with
    | some msg => (.error { status_code := 500, detail := msg }, db)
    | none =>
      (.ok "Health food deleted successfully",
        db.filter (fun r => !(r.id == food_id && r.user_id == payload.user_id)))

/-- `get_health_food` from `app/main.py` (GET /api/health/food/). -/
def get_health_food (secret : String) (now : Int) (token : Token)
    (fail : Option String) (db : List HealthFoodRow) :
    Except HTTPException (List HealthFoodRow) :=
  match verify_token secret now token with
  | .error e => .error e
  | .ok payload =>
    match fail with
    | some msg => .error { status_code := 500, detail := msg }
    | none => .ok (db.filter (fun r => r.user_id == payload.user_id))

/-- The state of the Supabase project the storage endpoints talk to:
the existing bucket ids (this application names buckets after account
ids) and the stored objects as (bucket id, object name, mimetype)
triples. -/
structure StorageState where
  buckets : List Int
  objects : List (Int × String × String)
deriving DecidableEq, Repr

/-- The response of `post_bucket`: either the bucket already existed or it
was created, echoing its id. -/
inductive BucketResponse where
  | found
  | created (bucket_id : Int)
deriving DecidableEq, Repr

/-- `post_bucket` from `app/main.py` (POST /api/supabase/get-bucket/{user_id}):
lists the buckets and, when none is named after the token subject, creates
one. The `user_id` path parameter is never read; only the user_id claim of
the verified token is used. -/
def post_bucket (user_id : Int) (secret : String) (now : Int) (token : Token)
    (fail : Option String) (st : StorageState) :
    Except HTTPException BucketResponse × StorageState :=
  match verify_token secret now token with
  | .error e => (.error e, st)
  | .ok payload =>
    let auth_user_id := payload.user_id
    match fail with
    | some msg => (.error { status_code := 500, detail := msg }, st)
    | none =>
      if st.buckets.contains auth_user_id then (.ok .found, st)
      else (.ok (.created auth_user_id),
        { st with buckets := st.buckets ++ [auth_user_id] })

/-- `upload_file` from `app/main.py` (POST /api/supabase/upload-file/{user_id}):
uploads into the bucket named after the token subject; the `user_id` path
parameter is never read. -/
def upload_file (user_id : Int) (filename : String) (mimetype : String)
    (secret : String) (now : Int) (token : Token) (fail : Option String)
    (st : StorageState) : Except HTTPException String × StorageState :=
  match verify_token secret now token with
  | .error e => (.error e, st)
  | .ok payload =>
    let auth_user_id := payload.user_id
    match fail with
    | some msg => (.error { status_code := 500, detail := msg }, st)
    | none =>
      (.ok "file uploaded",
        { st with objects := st.objects ++ [(auth_user_id, filename, mimetype)] })

/-- `get_files` from `app/main.py` (GET /api/supabase/get-files/{user_id}):
lists the bucket named after the token subject, rendering each object as
its name, a space, and its mimetype; the `user_id` path parameter is never
read. -/
def get_files (user_id : Int) (secret : String) (now : Int) (token : Token)
    (fail : Option String) (st : StorageState) :
    Except HTTPException (List String) :=
  match verify_token secret now token with
  | .error e => .error e
  | .ok payload =>
    let auth_user_id := payload.user_id
    match fail with
    | some msg => .error { status_code := 500, detail := msg }
    | none =>
      .ok ((st.objects.filter (fun o => o.1 == auth_user_id)).map
        (fun o => o.2.1 ++ " " ++ o.2.2))

/-- `delete_file` from `app/main.py` (DELETE /api/supabase/delete-file/{user_id}):
removes the named object from the bucket named after the token subject;
the `user_id` path parameter is never read. -/
def delete_file (user_id : Int) (file_name : String) (secret : String)
    (now : Int) (token : Token) (fail : Option String) (st : StorageState) :
    Except HTTPException String × StorageState :=
  match verify_token secret now token with
  | .error e => (.error e, st)
  | .ok payload =>
    let auth_user_id := payload.user_id
    match fail with
    | some msg => (.error { status_code := 500, detail := msg }, st)
    | none =>
      (.ok "file deleted",
        { st with objects :=
            st.objects.filter (fun o => !(o.1 == auth_user_id && o.2.1 == file_name)) })

/-- The signed URL the Supabase client returns for an object, as a function
of bucket, object name and validity window. -/
def signedUrl (bucket : Int) (name : String) (expires_in : Int) : String :=
  "signed/" ++ toString bucket ++ "/" ++ name ++ "?expires=" ++ toString expires_in

/-- `download_file` from `app/main.py` (GET /api/supabase/download-file/{user_id}):
asks for a signed URL on the bucket named after the token subject, with
the literal validity window 60 * 60 * 60 * 24 * 30 seconds from the
source; the `user_id` path parameter is never read. -/
def download_file (user_id : Int) (file_name : String) (secret : String)
    (now : Int) (token : Token) (fail : Option String) (st : StorageState) :
    Except HTTPException String :=
  match verify_token secret now token with
  | .error e => .error e
  | .ok payload =>
    let auth_user_id := payload.user_id
    match fail with
    | some msg => .error { status_code := 500, detail := msg }
    | none => .ok (signedUrl auth_user_id file_name (60 * 60 * 60 * 24 * 30))

/-! Generic list lemmas used to reason about the owner-scoped SQL
statements. -/

/-- A filter whose test fails on every member returns the empty list. -/
theorem filter_false_nil {α : Type} (p : α → Bool) (l : List α)
    (h : ∀ a ∈ l, p a = false) : l.filter p = [] := by
  induction l with
  | nil => rfl
  | cons x xs ih =>
    have hx := h x (List.mem_cons_self x xs)
    simp [List.filter_cons, hx, ih (fun a ha => h a (List.mem_cons_of_mem x ha))]

/-- Filtering with a negated test that fails on every member keeps the list
unchanged. -/
theorem filter_not_id {α : Type} (p : α → Bool) (l : List α)
    (h : ∀ a ∈ l, p a = false) : l.filter (fun a => !(p a)) = l := by
  induction l with
  | nil => rfl
  | cons x xs ih =>
    have hx := h x (List.mem_cons_self x xs)
    simp [List.filter_cons, hx, ih (fun a ha => h a (List.mem_cons_of_mem x ha))]

/-- Mapping a function that fixes every member keeps the list unchanged. -/
theorem map_fix_id {α : Type} (f : α → α) (l : List α)
    (h : ∀ a ∈ l, f a = a) : l.map f = l := by
  induction l with
  | nil => rfl
  | cons x xs ih =>
    simp [h x (List.mem_cons_self x xs), ih (fun a ha => h a (List.mem_cons_of_mem x ha))]

/-- The conjunction of two Int equality tests is false when the conjoined
proposition fails. -/
theorem pair_beq_false {a b c d : Int} (h : ¬(a = b ∧ c = d)) :
    (a == b && c == d) = false := by
  by_cases h1 : a = b
  · by_cases h2 : c = d
    · exact absurd ⟨h1, h2⟩ h
    · simp [h2]
  · simp [h1]

/-- Rows of a different owner do not influence an owner-filtered SELECT:
first erasing the rows owned by `a` commutes away under a filter for owner
`b` when `a ≠ b`. -/
theorem filter_owner_erase {α : Type} (uid : α → Int) (a b : Int)
    (hab : a ≠ b) (l : List α) :
    (l.filter (fun r => !(uid r == a))).filter (fun r => uid r == b) =
      l.filter (fun r => uid r == b) := by
  induction l with
  | nil => rfl
  | cons x xs ih =>
    by_cases hx : uid x = a
    · have hb : (uid x == b) = false := by
        simp only [beq_eq_false_iff_ne]
        rw [hx]; exact hab
      simp [List.filter_cons, hx, hb, ih, hab]
    · have hxa : (uid x == a) = false := by simp [hx]
      have hba : ¬b = a := fun hba => hab hba.symm
      by_cases hxb : uid x = b <;> simp [List.filter_cons, hxa, hxb, hba, ih]

/-- Variant of `filter_owner_erase` for a SELECT that filters by a further
condition conjoined with the owner test. -/
theorem filter_owner_erase_and {α : Type} (q : α → Bool) (uid : α → Int)
    (a b : Int) (hab : a ≠ b) (l : List α) :
    (l.filter (fun r => !(uid r == a))).filter (fun r => q r && uid r == b) =
      l.filter (fun r => q r && uid r == b) := by
  induction l with
  | nil => rfl
  | cons x xs ih =>
    by_cases hx : uid x = a
    · have hb : (uid x == b) = false := by
        simp only [beq_eq_false_iff_ne]
        rw [hx]; exact hab
      simp [List.filter_cons, hx, hb, ih, hab]
    · have hxa : (uid x == a) = false := by simp [hx]
      have hba : ¬b = a := fun hba => hab hba.symm
      by_cases hxb : uid x = b <;> by_cases hq : q x = true <;>
        simp [List.filter_cons, hxa, hxb, hba, hq, ih]

/-- The initial accumulator is below any fold of `max` over it. -/
theorem self_le_foldl_max (l : List Int) (a : Int) : a ≤ l.foldl max a := by
  induction l generalizing a with
  | nil => exact le_refl a
  | cons y ys ih => exact le_trans (le_max_left a y) (ih (max a y))

/-- Every member of a list is below the fold of `max` over it. -/
theorem le_foldl_max (l : List Int) : ∀ (a x : Int), x ∈ l → x ≤ l.foldl max a := by
  induction l with
  | nil => intro a x hx; cases hx
  | cons y ys ih =>
    intro a x hx
    rcases List.mem_cons.mp hx with h | h
    · subst h
      exact le_trans (le_max_right a x) (self_le_foldl_max ys (max a x))
    · exact ih (max a y) x h

/-! Behavior of each mutation handler on an id that matches zero rows for
the caller, shared by the zero-row and the owner-isolation analyses. -/

/-- `update_task` on zero matching rows: 404, table unchanged. -/
theorem update_task_no_match (task_id : Int) (task : Task) (secret : String)
    (now : Int) (token : Token) (payload : TokenPayload)
    (hv : verify_token secret now token = .ok payload) (db : List TaskRow)
    (h : ∀ r ∈ db, (r.id == task_id && r.user_id == payload.user_id) = false) :
    update_task task_id task secret now token none db =
      (.error { status_code := 404, detail := "Task not found" }, db) := by
  have hnil := filter_false_nil _ db h
  simp [update_task, hv, hnil]

/-- `delete_task` on zero matching rows: the command tag is "DELETE 0", the
404 raised inside the `try` is re-wrapped by the broad catch as HTTP 500
with detail "404: Task not found"; the table is unchanged. -/
theorem delete_task_no_match (task_id : Int) (secret : String) (now : Int)
    (token : Token) (payload : TokenPayload)
    (hv : verify_token secret now token = .ok payload) (db : List TaskRow)
    (h : ∀ r ∈ db, (r.id == task_id && r.user_id == payload.user_id) = false) :
    delete_task task_id secret now token none db =
      (.error { status_code := 500, detail := "404: Task not found" }, db) := by
  have hnil := filter_false_nil _ db h
  have hid := filter_not_id _ db h
  have hstr : (HTTPException.mk 404 "Task not found").str = "404: Task not found" := rfl
  simp [delete_task, hv, hnil, hid, hstr]
  intro r hr
  have hr2 := h r hr
  simp at hr2
  tauto

/-- `update_kanban_column` on zero matching rows: success message, table
unchanged. -/
theorem update_kanban_column_no_match (column_id : Int) (column : KanbanColumn)
    (secret : String) (now : Int) (token : Token) (payload : TokenPayload)
    (hv : verify_token secret now token = .ok payload)
    (db : List KanbanColumnRow)
    (h : ∀ r ∈ db, (r.id == column_id && r.user_id == payload.user_id) = false) :
    update_kanban_column column_id column secret now token none db =
      (.ok "Kanban column updated successfully", db) := by
  have hmap : db.map (updateKanbanColumnRowSql column.name column_id payload.user_id) = db :=
    map_fix_id _ db (fun r hr => by simp [updateKanbanColumnRowSql, h r hr])
  simp [update_kanban_column, hv, hmap]

/-- `delete_kanban_column` on zero matching rows: success message, table
unchanged. -/
theorem delete_kanban_column_no_match (column_id : Int) (secret : String)
    (now : Int) (token : Token) (payload : TokenPayload)
    (hv : verify_token secret now token = .ok payload)
    (db : List KanbanColumnRow)
    (h : ∀ r ∈ db, (r.id == column_id && r.user_id == payload.user_id) = false) :
    delete_kanban_column column_id secret now token none db =
      (.ok "Kanban column deleted successfully", db) := by
  have hid := filter_not_id _ db h
  simp [delete_kanban_column, hv, hid]
  intro r hr
  have hr2 := h r hr
  simp at hr2
  tauto

/-- `update_kanban_task` on zero matching rows: success message, table
unchanged. -/
theorem update_kanban_task_no_match (column_id task_id : Int) (task : Task)
    (secret : String) (now : Int) (token : Token) (payload : TokenPayload)
    (hv : verify_token secret now token = .ok payload) (db : List KanbanTaskRow)
    (h : ∀ r ∈ db, (r.id == task_id && r.user_id == payload.user_id) = false) :
    update_kanban_task column_id task_id task secret now token none db =
      (.ok "Kanban task updated successfully", db) := by
  have hmap : db.map (updateKanbanTaskRowSql (new_kanban_column_id column_id task)
      task.description task_id payload.user_id) = db :=
    map_fix_id _ db (fun r hr => by simp [updateKanbanTaskRowSql, h r hr])
  simp [update_kanban_task, hv, hmap]

/-- `delete_kanban_task` on zero matching rows: success message, table
unchanged. -/
theorem delete_kanban_task_no_match (task_id : Int) (secret : String)
    (now : Int) (token : Token) (payload : TokenPayload)
    (hv : verify_token secret now token = .ok payload) (db : List KanbanTaskRow)
    (h : ∀ r ∈ db, (r.id == task_id && r.user_id == payload.user_id) = false) :
    delete_kanban_task task_id secret now token none db =
      (.ok "Kanban task deleted successfully", db) := by
  have hid := filter_not_id _ db h
  simp [delete_kanban_task, hv, hid]
  intro r hr
  have hr2 := h r hr
  simp at hr2
  tauto

/-- `delete_health_activity` on zero matching rows: success message, table
unchanged. -/
theorem delete_health_activity_no_match (activity_id : Int) (secret : String)
    (now : Int) (token : Token) (payload : TokenPayload)
    (hv : verify_token secret now token = .ok payload)
    (db : List HealthActivityRow)
    (h : ∀ r ∈ db, (r.id == activity_id && r.user_id == payload.user_id) = false) :
    delete_health_activity activity_id secret now token none db =
      (.ok "Health activity deleted successfully", db) := by
  have hid := filter_not_id _ db h
  simp [delete_health_activity, hv, hid]
  intro r hr
  have hr2 := h r hr
  simp at hr2
  tauto

/-- `delete_health_glucose` on zero matching rows: success message, table
unchanged. -/
theorem delete_health_glucose_no_match (glucose_id : Int) (secret : String)
    (now : Int) (token : Token) (payload : TokenPayload)
    (hv : verify_token secret now token = .ok payload)
    (db : List HealthGlucoseRow)
    (h : ∀ r ∈ db, (r.id == glucose_id && r.user_id == payload.user_id) = false) :
    delete_health_glucose glucose_id secret now token none db =
      (.ok "Health glucose deleted successfully", db) := by
  have hid := filter_not_id _ db h
  simp [delete_health_glucose, hv, hid]
  intro r hr
  have hr2 := h r hr
  simp at hr2
  tauto

/-- `delete_health_food` on zero matching rows: success message, table
unchanged. -/
theorem delete_health_food_no_match (food_id : Int) (secret : String)
    (now : Int) (token : Token) (payload : TokenPayload)
    (hv : verify_token secret now token = .ok payload) (db : List HealthFoodRow)
    (h : ∀ r ∈ db, (r.id == food_id && r.user_id == payload.user_id) = false) :
    delete_health_food food_id secret now token none db =
      (.ok "Health food deleted successfully", db) := by
  have hid := filter_not_id _ db h
  simp [delete_health_food, hv, hid]
  intro r hr
  have hr2 := h r hr
  simp at hr2
  tauto

/-- C5: a token issued by `create_access_token` for an account id and
validated by `verify_token` before its expiry, with the same signing
secret, is accepted, and the returned claims carry that account id as the
user_id (subject) claim. -/
theorem token_roundtrip (secret : String) (account_id : Int)
    (issued_at t : Int) (h : t < issued_at + 900) :
    verify_token secret t (create_access_token secret issued_at account_id none) =
      .ok { user_id := account_id, exp := issued_at + 900 } := by
  have hexp : ¬(issued_at + 900 ≤ t) := by omega
  simp [verify_token, create_access_token, jwt_encode, jwt_decode, hexp]

/-- C5 witness: issuing at time 0 for account 42 and validating at time 1
under the secret "k" returns the claims with user_id 42. -/
theorem token_roundtrip_witness :
    verify_token "k" 1 (create_access_token "k" 0 42 none) =
      .ok { user_id := 42, exp := 900 } := by
  simpa using token_roundtrip "k" 42 0 1 (by norm_num)

/-- C3 (counterexample): a well-formed token whose expiry is already past
but whose signature does not verify is rejected with "Invalid token",
although the current time is at or past the payload expiry — the claim
demands "expired" in that situation. -/
theorem verify_token_priority_cex :
    verify_token "k" 100
        { payload := { user_id := 1, exp := 0 },
          sig := hmacSign "k" { user_id := 1, exp := 0 } + 1,
          wellFormed := true } =
      .error { status_code := 401, detail := "Invalid token" } ∧
    (0 : Int) ≤ 100 ∧ "Invalid token" ≠ "Token expired" := by
  refine ⟨?_, by norm_num, by decide⟩
  have h : hmacSign "k" { user_id := 1, exp := 0 } + 1 ≠
      hmacSign "k" { user_id := 1, exp := 0 } := by omega
  simp [verify_token, jwt_decode, h]

/-- C3 (amended): `verify_token` sorts every token into exactly one of
three mutually exclusive outcomes, in the order the PyJWT library checks
them: a malformed or wrongly signed token fails 401 "Invalid token" (also
when it is expired as well); otherwise a token whose expiry is at or before
the current time fails 401 "Token expired"; otherwise the decoded claims
are returned. -/
theorem verify_token_trichotomy (secret : String) (now : Int) (t : Token) :
    verify_token secret now t =
      if t.wellFormed = false ∨ t.sig ≠ hmacSign secret t.payload then
        .error { status_code := 401, detail := "Invalid token" }
      else if t.payload.exp ≤ now then
        .error { status_code := 401, detail := "Token expired" }
      else .ok t.payload := by
  unfold verify_token jwt_decode
  by_cases h1 : t.wellFormed = false <;>
    by_cases h2 : t.sig = hmacSign secret t.payload <;>
    by_cases h3 : t.payload.exp ≤ now <;>
    simp [h1, h2, h3]

/-- C8: every Supabase storage endpoint ignores its user_id path parameter:
two requests equal in everything but that parameter operate on the same
bucket (the one named after the user_id claim of the verified token) and
produce identical responses and states. -/
theorem supabase_ignores_path_user_id (u1 u2 : Int)
    (filename mimetype file_name : String) (secret : String) (now : Int)
    (token : Token) (fail : Option String) (st : StorageState) :
    post_bucket u1 secret now token fail st =
      post_bucket u2 secret now token fail st ∧
    upload_file u1 filename mimetype secret now token fail st =
      upload_file u2 filename mimetype secret now token fail st ∧
    get_files u1 secret now token fail st =
      get_files u2 secret now token fail st ∧
    delete_file u1 file_name secret now token fail st =
      delete_file u2 file_name secret now token fail st ∧
    download_file u1 file_name secret now token fail st =
      download_file u2 file_name secret now token fail st :=
  ⟨rfl, rfl, rfl, rfl, rfl⟩

/-- C4: login failure is uniform in account existence: whenever no stored
row for the username passes the bcrypt comparison — because the username
is absent from the store or because the digest comparison fails — login
answers the one fixed response HTTP 400 "Invalid credentials", so the
response cannot reveal whether the username exists. -/
theorem login_uniform_failure (user : User) (secret : String) (now : Int)
    (db : List UserRow)
    (h : ∀ r ∈ db, r.username = user.username →
      bcrypt_checkpw user.password r.password = false) :
    login user secret now none db =
      .http { status_code := 400, detail := "Invalid credentials" } := by
  unfold login
  cases hf : db.find? (fun r => r.username == user.username) with
  | none => simp [hf]
  | some row =>
    have hmem : row ∈ db := List.mem_of_find?_eq_some hf
    have hname : row.username = user.username := by
      have := List.find?_some hf
      simpa using this
    simp [hf, h row hmem hname]

/-- C4 witness: an absent username and an existing username with a wrong
password produce the same "Invalid credentials" response. -/
theorem login_uniform_failure_witness :
    login { username := "alice", password := "x" } "k" 0 none
        [{ id := 1, username := "bob", password := bcrypt_hashpw "pw" "s" }] =
      .http { status_code := 400, detail := "Invalid credentials" } ∧
    login { username := "bob", password := "x" } "k" 0 none
        [{ id := 1, username := "bob", password := bcrypt_hashpw "longpw" "s" }] =
      .http { status_code := 400, detail := "Invalid credentials" } := by
  constructor
  · exact login_uniform_failure _ "k" 0 _ (by
      intro r hr hname
      simp at hr
      rw [hr] at hname
      exact absurd hname (by decide))
  · exact login_uniform_failure _ "k" 0 _ (by
      intro r hr _
      simp at hr
      rw [hr]
      decide)

/-- C2 (counterexample): deleting a kanban column id that matches zero rows
answers the success message, and so does deleting a nonexistent health food
id — neither answers NotFound. -/
theorem zero_row_delete_success_cex :
    delete_kanban_column 5 "k" 10 (create_access_token "k" 0 7 none) none [] =
      (.ok "Kanban column deleted successfully", []) ∧
    delete_health_food 5 "k" 10 (create_access_token "k" 0 7 none) none [] =
      (.ok "Health food deleted successfully", []) :=
  ⟨rfl, rfl⟩

/-- C2 (amended): when an update or delete matches zero rows for the
caller, only the two task handlers detect it: `update_task` answers 404
"Task not found" and `delete_task` answers HTTP 500 whose detail wraps the
404 it raised inside its own `try` block ("404: Task not found"); the
kanban column and kanban task update/delete handlers and the health-record
delete handlers answer their success message, with every table left
unchanged in all cases. -/
theorem zero_row_update_delete (secret : String) (now : Int) (token : Token)
    (payload : TokenPayload) (hv : verify_token secret now token = .ok payload)
    (tid cid ktid aid gid fid : Int) (task : Task) (column : KanbanColumn)
    (tdb : List TaskRow) (cdb : List KanbanColumnRow)
    (kdb : List KanbanTaskRow) (adb : List HealthActivityRow)
    (gdb : List HealthGlucoseRow) (fdb : List HealthFoodRow)
    (ht : ∀ r ∈ tdb, ¬(r.id = tid ∧ r.user_id = payload.user_id))
    (hc : ∀ r ∈ cdb, ¬(r.id = cid ∧ r.user_id = payload.user_id))
    (hk : ∀ r ∈ kdb, ¬(r.id = ktid ∧ r.user_id = payload.user_id))
    (ha : ∀ r ∈ adb, ¬(r.id = aid ∧ r.user_id = payload.user_id))
    (hg : ∀ r ∈ gdb, ¬(r.id = gid ∧ r.user_id = payload.user_id))
    (hf : ∀ r ∈ fdb, ¬(r.id = fid ∧ r.user_id = payload.user_id)) :
    update_task tid task secret now token none tdb =
      (.error { status_code := 404, detail := "Task not found" }, tdb) ∧
    delete_task tid secret now token none tdb =
      (.error { status_code := 500, detail := "404: Task not found" }, tdb) ∧
    update_kanban_column cid column secret now token none cdb =
      (.ok "Kanban column updated successfully", cdb) ∧
    delete_kanban_column cid secret now token none cdb =
      (.ok "Kanban column deleted successfully", cdb) ∧
    update_kanban_task cid ktid task secret now token none kdb =
      (.ok "Kanban task updated successfully", kdb) ∧
    delete_kanban_task ktid secret now token none kdb =
      (.ok "Kanban task deleted successfully", kdb) ∧
    delete_health_activity aid secret now token none adb =
      (.ok "Health activity deleted successfully", adb) ∧
    delete_health_glucose gid secret now token none gdb =
      (.ok "Health glucose deleted successfully", gdb) ∧
    delete_health_food fid secret now token none fdb =
      (.ok "Health food deleted successfully", fdb) := by
  have ht2 : ∀ r ∈ tdb, (r.id == tid && r.user_id == payload.user_id) = false :=
    fun r hr => pair_beq_false (ht r hr)
  have hc2 : ∀ r ∈ cdb, (r.id == cid && r.user_id == payload.user_id) = false :=
    fun r hr => pair_beq_false (hc r hr)
  have hk2 : ∀ r ∈ kdb, (r.id == ktid && r.user_id == payload.user_id) = false :=
    fun r hr => pair_beq_false (hk r hr)
  have ha2 : ∀ r ∈ adb, (r.id == aid && r.user_id == payload.user_id) = false :=
    fun r hr => pair_beq_false (ha r hr)
  have hg2 : ∀ r ∈ gdb, (r.id == gid && r.user_id == payload.user_id) = false :=
    fun r hr => pair_beq_false (hg r hr)
  have hf2 : ∀ r ∈ fdb, (r.id == fid && r.user_id == payload.user_id) = false :=
    fun r hr => pair_beq_false (hf r hr)
  exact ⟨update_task_no_match tid task secret now token payload hv tdb ht2,
    delete_task_no_match tid secret now token payload hv tdb ht2,
    update_kanban_column_no_match cid column secret now token payload hv cdb hc2,
    delete_kanban_column_no_match cid secret now token payload hv cdb hc2,
    update_kanban_task_no_match cid ktid task secret now token payload hv kdb hk2,
    delete_kanban_task_no_match ktid secret now token payload hv kdb hk2,
    delete_health_activity_no_match aid secret now token payload hv adb ha2,
    delete_health_glucose_no_match gid secret now token payload hv gdb hg2,
    delete_health_food_no_match fid secret now token payload hv fdb hf2⟩

/-- C2 witness: against singleton tables owned by the caller but under a
different id, `delete_task` answers the wrapped 404 and
`delete_kanban_column` answers success, both leaving the row in place. -/
theorem zero_row_update_delete_witness :
    delete_task 1 "k" 10 (create_access_token "k" 0 7 none) none
        [{ id := 2, user_id := 7, description := "d", completed := false }] =
      (.error { status_code := 500, detail := "404: Task not found" },
        [{ id := 2, user_id := 7, description := "d", completed := false }]) ∧
    delete_kanban_column 1 "k" 10 (create_access_token "k" 0 7 none) none
        [{ id := 2, user_id := 7, name := "c" }] =
      (.ok "Kanban column deleted successfully",
        [{ id := 2, user_id := 7, name := "c" }]) := by
  have h := zero_row_update_delete "k" 10 (create_access_token "k" 0 7 none)
    { user_id := 7, exp := 900 } rfl 1 1 1 1 1 1
    { description := "d", completed := false } { name := "c" }
    [{ id := 2, user_id := 7, description := "d", completed := false }]
    [{ id := 2, user_id := 7, name := "c" }] [] [] [] []
    (by decide) (by decide) (by decide) (by decide) (by decide) (by decide)
  exact ⟨h.2.1, h.2.2.2.1⟩

/-- C6 (counterexample): registering a username that is already stored
fails with HTTP 500 carrying the raw unique-violation message — not with
Conflict (409). -/
theorem create_user_conflict_cex :
    (create_user { username := "alice", password := "pw" } "s" none
        [{ id := 1, username := "alice", password := bcrypt_hashpw "pw" "s" }]).1 =
      .error { status_code := 500, detail := uniqueViolationMessage } ∧
    (500 : Nat) ≠ 409 :=
  ⟨rfl, by decide⟩

/-- C6 (amended): registration with an already-present username fails with
HTTP 500 carrying the raw database error (the broad catch turns the unique
violation into an Internal response, not Conflict); with a fresh username
it stores the salted bcrypt digest of the password — never the plaintext —
under a newly assigned account id (fresh: strictly above every stored id)
and returns that id. -/
theorem create_user_amended (user : User) (salt : String) (db : List UserRow) :
    (db.any (fun r => r.username == user.username) = true →
      create_user user salt none db =
        (.error { status_code := 500, detail := uniqueViolationMessage }, db)) ∧
    (db.any (fun r => r.username == user.username) = false →
      create_user user salt none db =
        (.ok ("User created successfully", nextId (db.map UserRow.id)),
          db ++ [{ id := nextId (db.map UserRow.id), username := user.username,
                   password := bcrypt_hashpw user.password salt }])) ∧
    (∀ r ∈ db, r.id < nextId (db.map UserRow.id)) := by
  refine ⟨fun h => by simp [create_user, h], fun h => by simp [create_user, h], ?_⟩
  intro r hr
  have hle := le_foldl_max (db.map UserRow.id) 0 r.id (List.mem_map_of_mem UserRow.id hr)
  unfold nextId
  omega

/-- C6 witness: registering "bob" against a store holding only "alice"
appends the digest row under the fresh id 4 and returns it. -/
theorem create_user_amended_witness :
    create_user { username := "bob", password := "pw" } "s" none
        [{ id := 3, username := "alice", password := bcrypt_hashpw "q" "s" }] =
      (.ok ("User created successfully", 4),
        [{ id := 3, username := "alice", password := bcrypt_hashpw "q" "s" },
         { id := 4, username := "bob", password := bcrypt_hashpw "pw" "s" }]) := by
  have h := (create_user_amended { username := "bob", password := "pw" } "s"
    [{ id := 3, username := "alice", password := bcrypt_hashpw "q" "s" }]).2.1
    (by decide)
  rw [h]
  rfl

/-- C7 (counterexample): a broad failure inside `update_task` is answered
with the fixed detail "Internal server error", not with the raw error
message of the caught exception. -/
theorem update_task_raw_error_cex :
    (update_task 1 { description := "d", completed := true } "k" 10
        (create_access_token "k" 0 7 none) (some "db down") []).1 =
      .error { status_code := 500, detail := "Internal server error" } ∧
    "Internal server error" ≠ "db down" :=
  ⟨rfl, by decide⟩

/-- C7 (amended): every resource handler except `login` catches broad
failures and maps them to HTTP 500; the detail is the raw error message of
the caught exception for all of them except `update_task`, whose detail is
the fixed string "Internal server error"; `login` has no broad catch, so
its failures propagate uncaught. -/
theorem broad_failure_mapping (msg : String) (user : User) (salt : String)
    (secret : String) (now : Int) (token : Token) (payload : TokenPayload)
    (hv : verify_token secret now token = .ok payload)
    (task : Task) (column : KanbanColumn) (activity : HealthActivity)
    (glucose : HealthGlucose) (food : HealthFood)
    (tid cid ktid aid gid fid u : Int) (filename mimetype file_name : String)
    (udb : List UserRow) (tdb : List TaskRow) (cdb : List KanbanColumnRow)
    (kdb : List KanbanTaskRow) (adb : List HealthActivityRow)
    (gdb : List HealthGlucoseRow) (fdb : List HealthFoodRow)
    (st : StorageState) :
    (create_user user salt (some msg) udb).1 =
      .error { status_code := 500, detail := msg } ∧
    login user secret now (some msg) udb = .uncaught msg ∧
    (create_task task secret now token (some msg) tdb).1 =
      .error { status_code := 500, detail := msg } ∧
    get_tasks secret now token (some msg) tdb =
      .error { status_code := 500, detail := msg } ∧
    (update_task tid task secret now token (some msg) tdb).1 =
      .error { status_code := 500, detail := "Internal server error" } ∧
    (delete_task tid secret now token (some msg) tdb).1 =
      .error { status_code := 500, detail := msg } ∧
    (create_kanban_column column secret now token (some msg) cdb).1 =
      .error { status_code := 500, detail := msg } ∧
    (delete_kanban_column cid secret now token (some msg) cdb).1 =
      .error { status_code := 500, detail := msg } ∧
    (create_kanban_task cid task secret now token (some msg) kdb).1 =
      .error { status_code := 500, detail := msg } ∧
    (update_kanban_column cid column secret now token (some msg) cdb).1 =
      .error { status_code := 500, detail := msg } ∧
    get_kanban_columns secret now token (some msg) cdb =
      .error { status_code := 500, detail := msg } ∧
    get_kanban_tasks cid secret now token (some msg) kdb =
      .error { status_code := 500, detail := msg } ∧
    (update_kanban_task cid ktid task secret now token (some msg) kdb).1 =
      .error { status_code := 500, detail := msg } ∧
    (delete_kanban_task ktid secret now token (some msg) kdb).1 =
      .error { status_code := 500, detail := msg } ∧
    get_health_activity secret now token (some msg) adb =
      .error { status_code := 500, detail := msg } ∧
    (create_health_activity activity secret now token (some msg) adb).1 =
      .error { status_code := 500, detail := msg } ∧
    (delete_health_activity aid secret now token (some msg) adb).1 =
      .error { status_code := 500, detail := msg } ∧
    get_health_glucose secret now token (some msg) gdb =
      .error { status_code := 500, detail := msg } ∧
    (create_health_glucose glucose secret now token (some msg) gdb).1 =
      .error { status_code := 500, detail := msg } ∧
    (delete_health_glucose gid secret now token (some msg) gdb).1 =
      .error { status_code := 500, detail := msg } ∧
    (create_health_food food secret now token (some msg) fdb).1 =
      .error { status_code := 500, detail := msg } ∧
    (delete_health_food fid secret now token (some msg) fdb).1 =
      .error { status_code := 500, detail := msg } ∧
    get_health_food secret now token (some msg) fdb =
      .error { status_code := 500, detail := msg } ∧
    (post_bucket u secret now token (some msg) st).1 =
      .error { status_code := 500, detail := msg } ∧
    (upload_file u filename mimetype secret now token (some msg) st).1 =
      .error { status_code := 500, detail := msg } ∧
    get_files u secret now token (some msg) st =
      .error { status_code := 500, detail := msg } ∧
    (delete_file u file_name secret now token (some msg) st).1 =
      .error { status_code := 500, detail := msg } ∧
    download_file u file_name secret now token (some msg) st =
      .error { status_code := 500, detail := msg } := by
  refine ⟨rfl, rfl, ?_, ?_, ?_, ?_, ?_, ?_, ?_, ?_, ?_, ?_, ?_, ?_, ?_, ?_,
    ?_, ?_, ?_, ?_, ?_, ?_, ?_, ?_, ?_, ?_, ?_, ?_⟩ <;>
    simp [create_task, get_tasks, update_task, delete_task,
      create_kanban_column, delete_kanban_column, create_kanban_task,
      update_kanban_column, get_kanban_columns, get_kanban_tasks,
      update_kanban_task, delete_kanban_task, get_health_activity,
      create_health_activity, delete_health_activity, get_health_glucose,
      create_health_glucose, delete_health_glucose, create_health_food,
      delete_health_food, get_health_food, post_bucket, upload_file,
      get_files, delete_file, download_file, hv]

/-- C7 witness: with a verified token and a failing database round trip,
`update_task` answers the fixed detail, `delete_kanban_column` exposes the
raw message "boom", and `login` lets the failure propagate uncaught. -/
theorem broad_failure_mapping_witness :
    (update_task 1 { description := "d", completed := false } "k" 10
        (create_access_token "k" 0 7 none) (some "boom") []).1 =
      .error { status_code := 500, detail := "Internal server error" } ∧
    (delete_kanban_column 2 "k" 10 (create_access_token "k" 0 7 none)
        (some "boom") []).1 =
      .error { status_code := 500, detail := "boom" } ∧
    login { username := "a", password := "b" } "k" 10 (some "boom") [] =
      .uncaught "boom" := by
  have h := broad_failure_mapping "boom" { username := "a", password := "b" }
    "s" "k" 10 (create_access_token "k" 0 7 none) { user_id := 7, exp := 900 }
    rfl { description := "d", completed := false } { name := "c" }
    { date := 0, steps := 0, calories := 0, activity := "a" }
    { date := 0, glucose := 0 } { date := 0, calories := 0, water := 0 }
    1 2 3 4 5 6 7 "f" "m" "n" [] [] [] [] [] [] [] { buckets := [], objects := [] }
  obtain ⟨h1, h2, h3, h4, h5, h6, h7, h8, hrest⟩ := h
  exact ⟨h5, h8, h2⟩

/-- C9: updating an existing owned task succeeds and rewrites the table
with a per-row update that can change nothing but the completed field:
id, owner and stored description of every row are preserved — the
description sent in the request body is ignored — and the matching row
takes the completed value of the body. -/
theorem update_task_only_completed (task_id : Int) (task : Task)
    (secret : String) (now : Int) (token : Token) (payload : TokenPayload)
    (hv : verify_token secret now token = .ok payload) (db : List TaskRow)
    (hex : ∃ r ∈ db, r.id = task_id ∧ r.user_id = payload.user_id) :
    update_task task_id task secret now token none db =
      (.ok "Task updated successfully",
        db.map (updateTaskRowSql task_id payload.user_id task.completed)) ∧
    (∀ r : TaskRow,
      (updateTaskRowSql task_id payload.user_id task.completed r).description =
        r.description ∧
      (updateTaskRowSql task_id payload.user_id task.completed r).id = r.id ∧
      (updateTaskRowSql task_id payload.user_id task.completed r).user_id =
        r.user_id) ∧
    (∀ r : TaskRow, r.id = task_id → r.user_id = payload.user_id →
      (updateTaskRowSql task_id payload.user_id task.completed r).completed =
        task.completed) := by
  refine ⟨?_, ?_, ?_⟩
  · obtain ⟨r, hr, h1, h2⟩ := hex
    have hmem : r ∈ db.filter (fun r => r.id == task_id && r.user_id == payload.user_id) := by
      simp [List.mem_filter, hr, h1, h2]
    have hne : db.filter (fun r => r.id == task_id && r.user_id == payload.user_id) ≠ [] :=
      List.ne_nil_of_mem hmem
    obtain ⟨x, l2, hal⟩ := List.exists_cons_of_ne_nil hne
    simp [update_task, hv, hal]
  · intro r
    unfold updateTaskRowSql
    by_cases hcond : (r.id == task_id && r.user_id == payload.user_id) = true
    · rw [if_pos hcond]; exact ⟨rfl, rfl, rfl⟩
    · rw [if_neg hcond]; exact ⟨rfl, rfl, rfl⟩
  · intro r h1 h2
    simp [updateTaskRowSql, h1, h2]

/-- C9 witness: a concrete owned task keeps its stored description "keep"
although the request body carries "ignored"; only completed changes. -/
theorem update_task_only_completed_witness :
    update_task 1 { description := "ignored", completed := true } "k" 10
        (create_access_token "k" 0 7 none) none
        [{ id := 1, user_id := 7, description := "keep", completed := false }] =
      (.ok "Task updated successfully",
        [{ id := 1, user_id := 7, description := "keep", completed := true }]) := by
  have h := (update_task_only_completed 1 { description := "ignored", completed := true }
    "k" 10 (create_access_token "k" 0 7 none) { user_id := 7, exp := 900 } rfl
    [{ id := 1, user_id := 7, description := "keep", completed := false }]
    ⟨{ id := 1, user_id := 7, description := "keep", completed := false },
      by simp, rfl, rfl⟩).1
  rw [h]
  rfl

/-- C10: a kanban-task update always stores the column_id path parameter:
the body is typed `Task`, which has no column_id attribute, so the hasattr
branch never contributes; the computed new column id equals the path
parameter, the handler answers success and rewrites the table accordingly,
and every matching row ends with the path column id. -/
theorem update_kanban_task_column_from_path (column_id task_id : Int)
    (task : Task) (secret : String) (now : Int) (token : Token)
    (payload : TokenPayload) (hv : verify_token secret now token = .ok payload)
    (db : List KanbanTaskRow) :
    new_kanban_column_id column_id task = column_id ∧
    update_kanban_task column_id task_id task secret now token none db =
      (.ok "Kanban task updated successfully",
        db.map (updateKanbanTaskRowSql column_id task.description task_id
          payload.user_id)) ∧
    (∀ r : KanbanTaskRow, r.id = task_id → r.user_id = payload.user_id →
      (updateKanbanTaskRowSql column_id task.description task_id
        payload.user_id r).column_id = column_id) := by
  refine ⟨rfl, ?_, ?_⟩
  · simp [update_kanban_task, hv, new_kanban_column_id, task_has_column_id]
  · intro r h1 h2
    simp [updateKanbanTaskRowSql, h1, h2]

/-- C10 witness: a kanban task sitting in column 9 and updated through the
path for column 5 ends in column 5 for every request body. -/
theorem update_kanban_task_column_from_path_witness :
    update_kanban_task 5 1 { description := "d", completed := false } "k" 10
        (create_access_token "k" 0 7 none) none
        [{ id := 1, column_id := 9, user_id := 7, description := "old" }] =
      (.ok "Kanban task updated successfully",
        [{ id := 1, column_id := 5, user_id := 7, description := "d" }]) := by
  have h := (update_kanban_task_column_from_path 5 1
    { description := "d", completed := false } "k" 10
    (create_access_token "k" 0 7 none) { user_id := 7, exp := 900 } rfl
    [{ id := 1, column_id := 9, user_id := 7, description := "old" }]).2.1
  rw [h]
  rfl

/-- C1: owner isolation. With accounts a and b distinct and the caller
authenticated as b, whenever every row carrying a targeted id is owned by
a: every owner-scoped list read returns exactly what it would return were
the rows owned by a absent altogether (so a's rows are never returned), and
every update/delete aimed at such an id either answers NotFound (tasks) or
answers success having matched zero rows, with every table left unchanged —
a's rows are never mutated. -/
theorem owner_isolation (a : Int) (secret : String) (now : Int) (token : Token)
    (payload : TokenPayload) (hv : verify_token secret now token = .ok payload)
    (hab : a ≠ payload.user_id)
    (tid cid ktid aid gid fid : Int) (task : Task) (column : KanbanColumn)
    (tdb : List TaskRow) (cdb : List KanbanColumnRow) (kdb : List KanbanTaskRow)
    (adb : List HealthActivityRow) (gdb : List HealthGlucoseRow)
    (fdb : List HealthFoodRow)
    (ht : ∀ r ∈ tdb, r.id = tid → r.user_id = a)
    (hc : ∀ r ∈ cdb, r.id = cid → r.user_id = a)
    (hk : ∀ r ∈ kdb, r.id = ktid → r.user_id = a)
    (ha : ∀ r ∈ adb, r.id = aid → r.user_id = a)
    (hg : ∀ r ∈ gdb, r.id = gid → r.user_id = a)
    (hf : ∀ r ∈ fdb, r.id = fid → r.user_id = a) :
    get_tasks secret now token none tdb =
      get_tasks secret now token none (tdb.filter (fun r => !(r.user_id == a))) ∧
    get_kanban_columns secret now token none cdb =
      get_kanban_columns secret now token none
        (cdb.filter (fun r => !(r.user_id == a))) ∧
    get_kanban_tasks cid secret now token none kdb =
      get_kanban_tasks cid secret now token none
        (kdb.filter (fun r => !(r.user_id == a))) ∧
    get_health_activity secret now token none adb =
      get_health_activity secret now token none
        (adb.filter (fun r => !(r.user_id == a))) ∧
    get_health_glucose secret now token none gdb =
      get_health_glucose secret now token none
        (gdb.filter (fun r => !(r.user_id == a))) ∧
    get_health_food secret now token none fdb =
      get_health_food secret now token none
        (fdb.filter (fun r => !(r.user_id == a))) ∧
    update_task tid task secret now token none tdb =
      (.error { status_code := 404, detail := "Task not found" }, tdb) ∧
    delete_task tid secret now token none tdb =
      (.error { status_code := 500, detail := "404: Task not found" }, tdb) ∧
    update_kanban_column cid column secret now token none cdb =
      (.ok "Kanban column updated successfully", cdb) ∧
    delete_kanban_column cid secret now token none cdb =
      (.ok "Kanban column deleted successfully", cdb) ∧
    update_kanban_task cid ktid task secret now token none kdb =
      (.ok "Kanban task updated successfully", kdb) ∧
    delete_kanban_task ktid secret now token none kdb =
      (.ok "Kanban task deleted successfully", kdb) ∧
    delete_health_activity aid secret now token none adb =
      (.ok "Health activity deleted successfully", adb) ∧
    delete_health_glucose gid secret now token none gdb =
      (.ok "Health glucose deleted successfully", gdb) ∧
    delete_health_food fid secret now token none fdb =
      (.ok "Health food deleted successfully", fdb) := by
  have ht2 : ∀ r ∈ tdb, (r.id == tid && r.user_id == payload.user_id) = false :=
    fun r hr => pair_beq_false
      (fun hcon => hab ((ht r hr hcon.1).symm.trans hcon.2))
  have hc2 : ∀ r ∈ cdb, (r.id == cid && r.user_id == payload.user_id) = false :=
    fun r hr => pair_beq_false
      (fun hcon => hab ((hc r hr hcon.1).symm.trans hcon.2))
  have hk2 : ∀ r ∈ kdb, (r.id == ktid && r.user_id == payload.user_id) = false :=
    fun r hr => pair_beq_false
      (fun hcon => hab ((hk r hr hcon.1).symm.trans hcon.2))
  have ha2 : ∀ r ∈ adb, (r.id == aid && r.user_id == payload.user_id) = false :=
    fun r hr => pair_beq_false
      (fun hcon => hab ((ha r hr hcon.1).symm.trans hcon.2))
  have hg2 : ∀ r ∈ gdb, (r.id == gid && r.user_id == payload.user_id) = false :=
    fun r hr => pair_beq_false
      (fun hcon => hab ((hg r hr hcon.1).symm.trans hcon.2))
  have hf2 : ∀ r ∈ fdb, (r.id == fid && r.user_id == payload.user_id) = false :=
    fun r hr => pair_beq_false
      (fun hcon => hab ((hf r hr hcon.1).symm.trans hcon.2))
  refine ⟨?_, ?_, ?_, ?_, ?_, ?_,
    update_task_no_match tid task secret now token payload hv tdb ht2,
    delete_task_no_match tid secret now token payload hv tdb ht2,
    update_kanban_column_no_match cid column secret now token payload hv cdb hc2,
    delete_kanban_column_no_match cid secret now token payload hv cdb hc2,
    update_kanban_task_no_match cid ktid task secret now token payload hv kdb hk2,
    delete_kanban_task_no_match ktid secret now token payload hv kdb hk2,
    delete_health_activity_no_match aid secret now token payload hv adb ha2,
    delete_health_glucose_no_match gid secret now token payload hv gdb hg2,
    delete_health_food_no_match fid secret now token payload hv fdb hf2⟩
  · simp only [get_tasks, hv]
    rw [filter_owner_erase TaskRow.user_id a payload.user_id hab tdb]
  · simp only [get_kanban_columns, hv]
    rw [filter_owner_erase KanbanColumnRow.user_id a payload.user_id hab cdb]
  · simp only [get_kanban_tasks, hv]
    rw [filter_owner_erase_and (fun r => r.column_id == cid)
      KanbanTaskRow.user_id a payload.user_id hab kdb]
  · simp only [get_health_activity, hv]
    rw [filter_owner_erase HealthActivityRow.user_id a payload.user_id hab adb]
  · simp only [get_health_glucose, hv]
    rw [filter_owner_erase HealthGlucoseRow.user_id a payload.user_id hab gdb]
  · simp only [get_health_food, hv]
    rw [filter_owner_erase HealthFoodRow.user_id a payload.user_id hab fdb]

/-- C1 witness: account 2 reads no task of account 1, and its update/delete
aimed at the id of a row of account 1 leaves the row in place (404 for the
task update, success-with-zero-rows for the kanban column delete). -/
theorem owner_isolation_witness :
    get_tasks "k" 10 (create_access_token "k" 0 2 none) none
        [{ id := 1, user_id := 1, description := "secret", completed := false }] =
      get_tasks "k" 10 (create_access_token "k" 0 2 none) none
        ([{ id := 1, user_id := 1, description := "secret", completed := false }].filter
          (fun r => !(r.user_id == (1 : Int)))) ∧
    update_task 1 { description := "d", completed := true } "k" 10
        (create_access_token "k" 0 2 none) none
        [{ id := 1, user_id := 1, description := "secret", completed := false }] =
      (.error { status_code := 404, detail := "Task not found" },
        [{ id := 1, user_id := 1, description := "secret", completed := false }]) ∧
    delete_kanban_column 1 "k" 10 (create_access_token "k" 0 2 none) none
        [{ id := 1, user_id := 1, name := "c" }] =
      (.ok "Kanban column deleted successfully",
        [{ id := 1, user_id := 1, name := "c" }]) := by
  have h := owner_isolation 1 "k" 10 (create_access_token "k" 0 2 none)
    { user_id := 2, exp := 900 } rfl (by decide) 1 1 1 1 1 1
    { description := "d", completed := true } { name := "c" }
    [{ id := 1, user_id := 1, description := "secret", completed := false }]
    [{ id := 1, user_id := 1, name := "c" }] [] [] [] []
    (by decide) (by decide) (by decide) (by decide) (by decide) (by decide)
  exact ⟨h.1, h.2.2.2.2.2.2.1, h.2.2.2.2.2.2.2.2.2.1⟩

end App
